import Mathlib

/-!
# Verification of the judynest thermostat controller

A shallow embedding of `judynest.py`, a single-threaded polling loop that
keeps a Nest thermostat's HVAC mode and set point aligned with configured
targets, using indoor ambient temperature, the current target and an
optional outdoor temperature.

Temperatures are modelled as integers (degrees Fahrenheit, the unit of every
temperature in the configuration file and the Nest/OpenWeatherMap `Imperial`
readings; the decision logic uses only comparisons and ±2 offsets).
Network interaction is modelled by abstract response
values; the HTTP plumbing of `read_device` / `set_device` is embedded as a
fueled loop over a stream of responses so that termination of the source's
`while True` retry loops is a provable statement rather than an assumption.
-/

namespace Jnest

/-- HVAC modes the program distinguishes (`hvac_mode` strings in the source). -/
inductive HvacMode
  | heat
  | cool
  | heatCool   -- the source string 'heat-cool'
  | eco
  | off
deriving DecidableEq

/-- Configuration thresholds loaded from `judynest.cfg` (field names follow the
source's `cfg` keys). -/
structure Config where
  COOL_TARGET : ℤ
  HEAT_TARGET : ℤ
  MAX_ALLOWED_TEMP : ℤ
  MIN_ALLOWED_TEMP : ℤ
  OUTDOOR_COOL_THRESH : ℤ
  OUTDOOR_HEAT_THRESH : ℤ
  MIN_COOL_TARGET : ℤ
  MAX_COOL_TARGET : ℤ
  MAX_HEAT_TARGET : ℤ
  MIN_HEAT_TARGET : ℤ

/-- The device state read fresh on each poll (`read_device` result fields). -/
structure DeviceState where
  ambient_temperature_f : ℤ
  hvac_mode : HvacMode
  target_temperature_f : ℤ
deriving DecidableEq

/-- Python's short-circuit `outdoor >= thresh` on a possibly-`None` value:
holds when the outdoor reading is present and at least the threshold. -/
def outdoor_ge (od : Option ℤ) (th : ℤ) : Prop :=
  ∃ o, od = some o ∧ th ≤ o

instance (od : Option ℤ) (th : ℤ) : Decidable (outdoor_ge od th) :=
  match od with
  | none => .isFalse (by simp [outdoor_ge])
  | some o => decidable_of_iff (th ≤ o) (by simp [outdoor_ge])

/-- Python's short-circuit `outdoor <= thresh` on a possibly-`None` value. -/
def outdoor_le (od : Option ℤ) (th : ℤ) : Prop :=
  ∃ o, od = some o ∧ o ≤ th

instance (od : Option ℤ) (th : ℤ) : Decidable (outdoor_le od th) :=
  match od with
  | none => .isFalse (by simp [outdoor_le])
  | some o => decidable_of_iff (o ≤ th) (by simp [outdoor_le])

/-- Strict variant `outdoor > thresh`: present and strictly above. -/
def outdoor_gt (od : Option ℤ) (th : ℤ) : Prop :=
  ∃ o, od = some o ∧ th < o

instance (od : Option ℤ) (th : ℤ) : Decidable (outdoor_gt od th) :=
  match od with
  | none => .isFalse (by simp [outdoor_gt])
  | some o => decidable_of_iff (th < o) (by simp [outdoor_gt])

/-- Strict variant `outdoor < thresh`: present and strictly below. -/
def outdoor_lt (od : Option ℤ) (th : ℤ) : Prop :=
  ∃ o, od = some o ∧ o < th

instance (od : Option ℤ) (th : ℤ) : Decidable (outdoor_lt od th) :=
  match od with
  | none => .isFalse (by simp [outdoor_lt])
  | some o => decidable_of_iff (o < th) (by simp [outdoor_lt])

/-- Guard of the heat branch, source lines 695-698:
`ambient > MAX_ALLOWED_TEMP or (ambient > target+2 and ambient > COOL_TARGET
and (outdoor == None or outdoor >= OUTDOOR_COOL_THRESH))`. -/
def heat_switch_cond (cfg : Config) (ambient target : ℤ) (outdoor : Option ℤ) : Prop :=
  cfg.MAX_ALLOWED_TEMP < ambient ∨
    (target + 2 < ambient ∧ cfg.COOL_TARGET < ambient ∧
      (outdoor = none ∨ outdoor_ge outdoor cfg.OUTDOOR_COOL_THRESH))

instance (cfg : Config) (a t : ℤ) (od : Option ℤ) :
    Decidable (heat_switch_cond cfg a t od) := by
  unfold heat_switch_cond
  infer_instance

/-- Guard of the cool branch, source lines 706-709:
`ambient < MIN_ALLOWED_TEMP or (ambient < target-2 and ambient < HEAT_TARGET
and (outdoor == None or outdoor <= OUTDOOR_HEAT_THRESH))`. -/
def cool_switch_cond (cfg : Config) (ambient target : ℤ) (outdoor : Option ℤ) : Prop :=
  ambient < cfg.MIN_ALLOWED_TEMP ∨
    (ambient < target - 2 ∧ ambient < cfg.HEAT_TARGET ∧
      (outdoor = none ∨ outdoor_le outdoor cfg.OUTDOOR_HEAT_THRESH))

instance (cfg : Config) (a t : ℤ) (od : Option ℤ) :
    Decidable (cool_switch_cond cfg a t od) := by
  unfold cool_switch_cond
  infer_instance

/-- Which of `set_heat` / `set_cool` the poll body invokes, with the explicit
`new_targ` argument when the call passes one (`none` = Python default `None`). -/
inductive Action
  | callSetHeat (new_targ : Option ℤ)
  | callSetCool (new_targ : Option ℤ)
deriving DecidableEq

/-- The decision section of the poll loop, source lines 693-727: given the
observed mode/ambient/target, the mode remembered from the prior poll and the
(possibly unknown) outdoor temperature, which corrective call is made. -/
def poll_decision (cfg : Config) (mode lastmode : HvacMode) (ambient target : ℤ)
    (outdoor : Option ℤ) : Option Action :=
  if mode = .heat ∧ mode = lastmode then
    if heat_switch_cond cfg ambient target outdoor then
      some (.callSetCool none)
    else if cfg.MAX_HEAT_TARGET < target ∨ target < cfg.MIN_HEAT_TARGET then
      some (.callSetHeat (some cfg.HEAT_TARGET))
    else
      none
  else if mode = .cool ∧ mode = lastmode then
    if cool_switch_cond cfg ambient target outdoor then
      some (.callSetHeat none)
    else if target < cfg.MIN_COOL_TARGET ∨ cfg.MAX_COOL_TARGET < target then
      some (.callSetCool (some cfg.COOL_TARGET))
    else
      none
  else if (mode = .heatCool ∨ mode = .eco) ∧ mode = lastmode then
    match outdoor with
    | some o =>
      if o ≤ cfg.OUTDOOR_HEAT_THRESH ∧ ambient ≤ cfg.COOL_TARGET then
        some (.callSetHeat none)
      else
        some (.callSetCool none)
    | none =>
      if ambient ≤ cfg.COOL_TARGET then
        some (.callSetHeat none)
      else
        some (.callSetCool none)
  else
    none

/-- A fixed configuration used for concrete counterexamples and witnesses:
cool target 72, heat target 68, allowed ambient band 60-80, outdoor cool
threshold 50, outdoor heat threshold 45, cool-target bounds 65-78,
heat-target bounds 62-74 (in the field order of `Config`). -/
def testCfg : Config :=
  ⟨72, 68, 80, 60, 50, 45, 65, 78, 74, 62⟩

/-- One `set_device` write: the `parm`/`value` pair passed to the Nest API. -/
inductive WriteParm
  | hvac_mode (m : HvacMode)
  | target_temperature_f (t : ℤ)
deriving DecidableEq

/-- What a `set_heat` / `set_cool` call did: the `set_device` writes attempted,
in order, and the `log.info` action lines emitted. -/
structure SetOutcome where
  writes : List WriteParm
  logs : List String
deriving DecidableEq

/-- Model of `set_heat`, source lines 529-540.  `modeWriteOk` is the truth value the
`set_device(token, device_id, 'hvac_mode', 'heat')` call returns; only when it
is true are the target write and the action log performed. -/
def set_heat (modeWriteOk : Bool) (mode : HvacMode) (cfg : Config)
    (new_targ : Option ℤ) : SetOutcome :=
  let action := if mode = .heat then "Override target heat temp"
                else "Switch to heat"
  let targ := match new_targ with
    | none => cfg.HEAT_TARGET
    | some t => t
  if modeWriteOk then
    ⟨[.hvac_mode .heat, .target_temperature_f targ], [action]⟩
  else
    ⟨[.hvac_mode .heat], []⟩

/-- Model of `set_cool`, source lines 543-554, mirror of `set_heat`. -/
def set_cool (modeWriteOk : Bool) (mode : HvacMode) (cfg : Config)
    (new_targ : Option ℤ) : SetOutcome :=
  let action := if mode = .cool then "Override target cool temp"
                else "Switch to cool"
  let targ := match new_targ with
    | none => cfg.COOL_TARGET
    | some t => t
  if modeWriteOk then
    ⟨[.hvac_mode .cool, .target_temperature_f targ], [action]⟩
  else
    ⟨[.hvac_mode .cool], []⟩

/-- The writes attempted by the action the poll body chose, given whether the
`hvac_mode` write succeeds. -/
def action_writes (cfg : Config) (mode : HvacMode) (modeWriteOk : Bool) :
    Option Action → List WriteParm
  | none => []
  | some (.callSetHeat nt) => (set_heat modeWriteOk mode cfg nt).writes
  | some (.callSetCool nt) => (set_cool modeWriteOk mode cfg nt).writes

/-- The `lastmode` / `lasttarg` / `lastamb` variables of `main`
(source lines 633-635, updated at lines 729-731). -/
structure PollState where
  lastmode : HvacMode
  lasttarg : ℤ
  lastamb : ℤ
deriving DecidableEq

/-- Initial remembered state of `main`: `lastmode = 'off'`, `lasttarg = 0`,
`lastamb = 0` (source lines 633-635). -/
def initialPollState : PollState :=
  ⟨.off, 0, 0⟩

/-- Result of one body of the `while True` poll loop. -/
structure PollResult where
  state : PollState
  action : Option Action
  statusLogged : Bool
deriving DecidableEq

/-- One poll cycle, source lines 664-731: if `read_device` failed (`stat is
None`) the cycle is skipped via `continue` with nothing changed; otherwise the
status line is logged when anything changed since the prior poll, the decision
section picks an action, and the remembered state becomes the observed state. -/
def poll_step (cfg : Config) (st : PollState) (readResult : Option DeviceState)
    (outdoor : Option ℤ) : PollResult :=
  match readResult with
  | none => ⟨st, none, false⟩
  | some stat =>
    let ambient := stat.ambient_temperature_f
    let mode := stat.hvac_mode
    let target := stat.target_temperature_f
    ⟨⟨mode, target, ambient⟩,
     poll_decision cfg mode st.lastmode ambient target outdoor,
     decide (mode ≠ st.lastmode ∨ target ≠ st.lasttarg ∨ ambient ≠ st.lastamb)⟩

/-- Abstract outcome of the one HTTP GET in `get_outdoor_temp`:
`err` is a `requests.Timeout` / `requests.ConnectionError`; otherwise a
response with its status code and the parsed `main.temp` field (`none` when
the body is not parseable JSON). -/
inductive OwmResult
  | err
  | ok (status : Nat) (body : Option ℤ)

/-- Model of `get_outdoor_temp`, source lines 489-526 (real-reading path): `None` on
timeout/connection error, on JSON parse failure and on a non-200 status;
the reported temperature only on a parseable 200 response. -/
def get_outdoor_temp : OwmResult → Option ℤ
  | .err => none
  | .ok status body =>
    match body with
    | none => none
    | some t => if status ≠ 200 then none else some t

/-- Decision logic over the indoor readings only: `poll_decision` with every
outdoor-temperature guard dropped.  This is the fallback behaviour the spec
promises when the outdoor temperature is unknown. -/
def poll_decision_indoor (cfg : Config) (mode lastmode : HvacMode)
    (ambient target : ℤ) : Option Action :=
  if mode = .heat ∧ mode = lastmode then
    if cfg.MAX_ALLOWED_TEMP < ambient ∨
        (target + 2 < ambient ∧ cfg.COOL_TARGET < ambient) then
      some (.callSetCool none)
    else if cfg.MAX_HEAT_TARGET < target ∨ target < cfg.MIN_HEAT_TARGET then
      some (.callSetHeat (some cfg.HEAT_TARGET))
    else
      none
  else if mode = .cool ∧ mode = lastmode then
    if ambient < cfg.MIN_ALLOWED_TEMP ∨
        (ambient < target - 2 ∧ ambient < cfg.HEAT_TARGET) then
      some (.callSetHeat none)
    else if target < cfg.MIN_COOL_TARGET ∨ cfg.MAX_COOL_TARGET < target then
      some (.callSetCool (some cfg.COOL_TARGET))
    else
      none
  else if (mode = .heatCool ∨ mode = .eco) ∧ mode = lastmode then
    if ambient ≤ cfg.COOL_TARGET then
      some (.callSetHeat none)
    else
      some (.callSetCool none)
  else
    none

/-- The canonical Nest API URL (source line 148). -/
def API_URL : String :=
  "https://developer-api.nest.com"

/-- One HTTP response to a GET in `read_device`: status code, the `Location`
header (meaningful on a 307), and the JSON-parsed device payload (`none` when
`json.loads` raises). -/
structure RResp where
  status : Nat
  location : String
  body : Option DeviceState
deriving DecidableEq

/-- Outcome of one `requests.get`: a timeout/connection error or a response. -/
inductive RNet
  | err
  | ok (r : RResp)
deriving DecidableEq

/-- Outcome of one iteration of the `while True` loop in `read_device`:
either the function returns (result plus the cached `read_redirect_url`), or
the loop continues with `url = API_URL`. -/
inductive RIter
  | ret (res : Option DeviceState) (rurl : Option String)
  | again (rurl : Option String)
deriving DecidableEq

/-- The tail of a `read_device` loop iteration, source lines 285-307: parse
the body, then on a non-200 status either give up (no cached redirect in play,
source line 293) or retry the canonical URL; break on 200. -/
def read_finish (r : RResp) (url : String) (rurl : Option String) : RIter :=
  match r.body with
  | none => .ret none rurl
  | some dev =>
    if r.status = 200 then
      .ret (some dev) rurl
    else
      match rurl with
      | none => .ret none rurl
      | some ru => if url = ru then .again rurl else .ret none rurl

/-- One iteration of the `read_device` loop, source lines 260-307.  `ev.1` is
the response to the GET of `url`; on a 307 the cached redirect is replaced by
the `Location` header and `ev.2` is the response to the follow-up GET. -/
def read_iter (ev : RNet × RNet) (url : String) (rurl : Option String) : RIter :=
  match ev.1 with
  | .err => .ret none rurl
  | .ok r =>
    if r.status = 307 then
      match ev.2 with
      | .err => .ret none (some r.location)
      | .ok r2 => read_finish r2 url (some r.location)
    else
      read_finish r url rurl

/-- The `while True` loop of `read_device`, with `fuel` bounding how many
iterations we unfold: `none` means the loop was still running after `fuel`
iterations; `some (res, rurl)` means the function returned `res` leaving
`read_redirect_url = rurl`.  `net i` supplies the (up to two) responses of
iteration `i`. -/
def read_loop (net : Nat → RNet × RNet) :
    Nat → Nat → String → Option String → Option (Option DeviceState × Option String)
  | 0, _, _, _ => none
  | fuel + 1, i, url, rurl =>
    match read_iter (net i) url rurl with
    | .ret res rurl' => some (res, rurl')
    | .again rurl' => read_loop net fuel (i + 1) API_URL rurl'

/-- Initial URL choice (source lines 249-252 and 336-339): the cached
redirect when present, else the given canonical URL. -/
def start_url (canonical : String) : Option String → String
  | none => canonical
  | some u => u

/-- Model of `read_device`, source lines 241-318 (network path): start at the cached
`read_redirect_url` when present, else at `API_URL`. -/
def read_device (net : Nat → RNet × RNet) (rurl : Option String) (fuel : Nat) :
    Option (Option DeviceState × Option String) :=
  read_loop net fuel 0 (start_url API_URL rurl) rurl

/-- One HTTP response to a PUT in `set_device`: status code, `Location`
header, and whether the response body was parseable JSON. -/
structure WResp where
  status : Nat
  location : String
  parseOk : Bool
deriving DecidableEq

/-- Outcome of one `requests.put`: a timeout/connection error or a response. -/
inductive WNet
  | err
  | ok (r : WResp)
deriving DecidableEq

/-- Outcome of one iteration of the `while True` loop in `set_device`. -/
inductive WIter
  | ret (res : Bool) (wurl : Option String)
  | again (wurl : Option String)
deriving DecidableEq

/-- The tail of a `set_device` loop iteration, source lines 375-397. -/
def write_finish (r : WResp) (url : String) (wurl : Option String) : WIter :=
  if r.parseOk = false then
    .ret false wurl
  else if r.status = 200 then
    .ret true wurl
  else
    match wurl with
    | none => .ret false wurl
    | some wu => if url = wu then .again wurl else .ret false wurl

/-- One iteration of the `set_device` loop, source lines 348-397. -/
def write_iter (ev : WNet × WNet) (url : String) (wurl : Option String) : WIter :=
  match ev.1 with
  | .err => .ret false wurl
  | .ok r =>
    if r.status = 307 then
      match ev.2 with
      | .err => .ret false (some r.location)
      | .ok r2 => write_finish r2 url (some r.location)
    else
      write_finish r url wurl

/-- The `while True` loop of `set_device`, fueled as in `read_loop`.
`parm_url` is the per-device URL built from `API_URL` at source line 334. -/
def write_loop (net : Nat → WNet × WNet) (parm_url : String) :
    Nat → Nat → String → Option String → Option (Bool × Option String)
  | 0, _, _, _ => none
  | fuel + 1, i, url, wurl =>
    match write_iter (net i) url wurl with
    | .ret res wurl' => some (res, wurl')
    | .again wurl' => write_loop net parm_url fuel (i + 1) parm_url wurl'

/-- Model of `set_device`, source lines 321-399 (network path): start at the cached
`write_redirect_url` when present, else at the parameter URL. -/
def set_device (net : Nat → WNet × WNet) (parm_url : String) (wurl : Option String)
    (fuel : Nat) : Option (Bool × Option String) :=
  write_loop net parm_url fuel 0 (start_url parm_url wurl) wurl

/-- A concrete device payload for counterexample network streams. -/
def cexBody : DeviceState :=
  ⟨70, .heat, 70⟩

/-- A network stream for `read_device`: the first GET answers 500 (parseable
body), and every later GET answers 307 redirecting to `API_URL` itself whose
follow-up GET answers 500 (parseable body). -/
def cexNet : Nat → RNet × RNet :=
  fun n =>
    if n = 0 then
      (.ok ⟨500, "", some cexBody⟩, .err)
    else
      (.ok ⟨307, API_URL, none⟩, .ok ⟨500, "", some cexBody⟩)

/-- A network stream for `read_device` whose first GET answers 500 and whose
second (the canonical-URL retry) answers 503, both with parseable bodies. -/
def cexFailNet : Nat → RNet × RNet :=
  fun n =>
    if n = 0 then
      (.ok ⟨500, "", some cexBody⟩, .err)
    else
      (.ok ⟨503, "", some cexBody⟩, .err)

/-- A network stream for `read_device` that always answers 200 with a
parseable body. -/
def okRNet : Nat → RNet × RNet :=
  fun _ => (.ok ⟨200, "", some cexBody⟩, .err)

/-- A network stream for `set_device` that always answers 200 with a
parseable body. -/
def okWNet : Nat → WNet × WNet :=
  fun _ => (.ok ⟨200, "", true⟩, .err)

/-- A network stream for `set_device` whose first PUT answers 500 and whose
second (the canonical-URL retry) answers 503, both with parseable bodies. -/
def cexWFailNet : Nat → WNet × WNet :=
  fun n =>
    if n = 0 then
      (.ok ⟨500, "", true⟩, .err)
    else
      (.ok ⟨503, "", true⟩, .err)

lemma poll_decision_heat_eq (cfg : Config) (ambient target : ℤ) (outdoor : Option ℤ) :
    poll_decision cfg .heat .heat ambient target outdoor =
      if heat_switch_cond cfg ambient target outdoor then
        some (.callSetCool none)
      else if cfg.MAX_HEAT_TARGET < target ∨ target < cfg.MIN_HEAT_TARGET then
        some (.callSetHeat (some cfg.HEAT_TARGET))
      else
        none := by
  simp [poll_decision]

lemma poll_decision_cool_eq (cfg : Config) (ambient target : ℤ) (outdoor : Option ℤ) :
    poll_decision cfg .cool .cool ambient target outdoor =
      if cool_switch_cond cfg ambient target outdoor then
        some (.callSetHeat none)
      else if target < cfg.MIN_COOL_TARGET ∨ cfg.MAX_COOL_TARGET < target then
        some (.callSetCool (some cfg.COOL_TARGET))
      else
        none := by
  simp [poll_decision]

lemma poll_decision_hc_eq (cfg : Config) (mode : HvacMode) (ambient target : ℤ)
    (outdoor : Option ℤ) (hm : mode = .heatCool ∨ mode = .eco) :
    poll_decision cfg mode mode ambient target outdoor =
      match outdoor with
      | some o =>
        if o ≤ cfg.OUTDOOR_HEAT_THRESH ∧ ambient ≤ cfg.COOL_TARGET then
          some (.callSetHeat none)
        else
          some (.callSetCool none)
      | none =>
        if ambient ≤ cfg.COOL_TARGET then
          some (.callSetHeat none)
        else
          some (.callSetCool none) := by
  rcases hm with rfl | rfl <;> simp [poll_decision]

/-- C1 counterexample: with the outdoor temperature exactly at
`OUTDOOR_COOL_THRESH` (50 in `testCfg`), ambient 75 above both target+2 and
the cool target but not above the absolute ceiling, the code does switch to
cool, whereas the claim's condition — which requires outdoor strictly above
the threshold — does not hold. -/
theorem heat_switch_strict_outdoor_counterexample :
    poll_decision testCfg .heat .heat 75 70 (some 50) = some (.callSetCool none) ∧
      ¬ (testCfg.MAX_ALLOWED_TEMP < (75 : ℤ) ∨
          ((70 : ℤ) + 2 < 75 ∧ testCfg.COOL_TARGET < 75 ∧
            ((some (50 : ℤ)) = none ∨
              outdoor_gt (some 50) testCfg.OUTDOOR_COOL_THRESH))) := by
  decide

/-- C1 (amended: outdoor at-or-above the cool threshold): on a poll in heat
mode with the mode unchanged, the program switches to cool — commanding cool
mode and, when that write succeeds, the configured `COOL_TARGET` — exactly
when ambient exceeds `MAX_ALLOWED_TEMP`, or ambient exceeds target+2 and
exceeds `COOL_TARGET` and the outdoor temperature is unknown or at/above
`OUTDOOR_COOL_THRESH`. -/
theorem heat_switch_to_cool_iff (cfg : Config) (ambient target : ℤ)
    (outdoor : Option ℤ) :
    (poll_decision cfg .heat .heat ambient target outdoor =
        some (.callSetCool none) ↔
      cfg.MAX_ALLOWED_TEMP < ambient ∨
        (target + 2 < ambient ∧ cfg.COOL_TARGET < ambient ∧
          (outdoor = none ∨ outdoor_ge outdoor cfg.OUTDOOR_COOL_THRESH))) ∧
    (set_cool true .heat cfg none).writes =
      [.hvac_mode .cool, .target_temperature_f cfg.COOL_TARGET] := by
  constructor
  · rw [poll_decision_heat_eq]
    by_cases h : heat_switch_cond cfg ambient target outdoor
    · simp only [h, if_true]
      exact iff_of_true trivial h
    · simp only [h, if_false]
      refine iff_of_false ?_ h
      split <;> simp
  · simp [set_cool]

/-- C2 counterexample: with the outdoor temperature exactly at
`OUTDOOR_HEAT_THRESH` (45 in `testCfg`), ambient 61 below both target-2 and
the heat target but not below the absolute floor, the code does switch to
heat, whereas the claim's condition — which requires outdoor strictly below
the threshold — does not hold. -/
theorem cool_switch_strict_outdoor_counterexample :
    poll_decision testCfg .cool .cool 61 65 (some 45) = some (.callSetHeat none) ∧
      ¬ ((61 : ℤ) < testCfg.MIN_ALLOWED_TEMP ∨
          ((61 : ℤ) < 65 - 2 ∧ (61 : ℤ) < testCfg.HEAT_TARGET ∧
            ((some (45 : ℤ)) = none ∨
              outdoor_lt (some 45) testCfg.OUTDOOR_HEAT_THRESH))) := by
  decide

/-- C2 (amended: outdoor at-or-below the heat threshold): on a poll in cool
mode with the mode unchanged, the program switches to heat — the floor/heat
mirror of the heat rule — exactly when ambient is below `MIN_ALLOWED_TEMP`,
or ambient is below target-2 and below `HEAT_TARGET` and the outdoor
temperature is unknown or at/below `OUTDOOR_HEAT_THRESH`. -/
theorem cool_switch_to_heat_iff (cfg : Config) (ambient target : ℤ)
    (outdoor : Option ℤ) :
    (poll_decision cfg .cool .cool ambient target outdoor =
        some (.callSetHeat none) ↔
      ambient < cfg.MIN_ALLOWED_TEMP ∨
        (ambient < target - 2 ∧ ambient < cfg.HEAT_TARGET ∧
          (outdoor = none ∨ outdoor_le outdoor cfg.OUTDOOR_HEAT_THRESH))) ∧
    (set_heat true .cool cfg none).writes =
      [.hvac_mode .heat, .target_temperature_f cfg.HEAT_TARGET] := by
  constructor
  · rw [poll_decision_cool_eq]
    by_cases h : cool_switch_cond cfg ambient target outdoor
    · simp only [h, if_true]
      exact iff_of_true trivial h
    · simp only [h, if_false]
      refine iff_of_false ?_ h
      split <;> simp
  · simp [set_heat]

/-- C3: on a poll in heat-cool or eco mode with the mode unchanged, when the
outdoor temperature is known, heat is chosen iff outdoor is at/below
`OUTDOOR_HEAT_THRESH` and ambient is at/below `COOL_TARGET`, and cool is
chosen otherwise; when it is unknown, heat is chosen iff ambient is at/below
`COOL_TARGET`, and cool otherwise. -/
theorem heatcool_eco_choice (cfg : Config) (mode : HvacMode) (ambient target : ℤ)
    (o : ℤ) (hm : mode = .heatCool ∨ mode = .eco) :
    (poll_decision cfg mode mode ambient target (some o) =
        some (.callSetHeat none) ↔
      o ≤ cfg.OUTDOOR_HEAT_THRESH ∧ ambient ≤ cfg.COOL_TARGET) ∧
    (poll_decision cfg mode mode ambient target (some o) =
        some (.callSetCool none) ↔
      ¬ (o ≤ cfg.OUTDOOR_HEAT_THRESH ∧ ambient ≤ cfg.COOL_TARGET)) ∧
    (poll_decision cfg mode mode ambient target none =
        some (.callSetHeat none) ↔
      ambient ≤ cfg.COOL_TARGET) ∧
    (poll_decision cfg mode mode ambient target none =
        some (.callSetCool none) ↔
      ¬ ambient ≤ cfg.COOL_TARGET) := by
  rw [poll_decision_hc_eq cfg mode ambient target (some o) hm,
      poll_decision_hc_eq cfg mode ambient target none hm]
  refine ⟨?_, ?_, ?_, ?_⟩ <;>
    · split <;> simp_all

/-- Witness for C3 at `testCfg`, eco mode, outdoor 40 (at/below the heat
threshold 45) and ambient 70 (at/below the cool target 72): heat is chosen. -/
theorem heatcool_eco_choice_witness :
    poll_decision testCfg .eco .eco 70 71 (some 40) = some (.callSetHeat none) := by
  exact (heatcool_eco_choice testCfg .eco 70 71 40 (Or.inr rfl)).1.2 (by decide)

lemma poll_decision_ne (cfg : Config) (mode lastmode : HvacMode) (ambient target : ℤ)
    (outdoor : Option ℤ) (h : mode ≠ lastmode) :
    poll_decision cfg mode lastmode ambient target outdoor = none := by
  cases mode <;> cases lastmode <;> simp_all [poll_decision]

lemma poll_decision_off (cfg : Config) (lastmode : HvacMode) (ambient target : ℤ)
    (outdoor : Option ℤ) :
    poll_decision cfg .off lastmode ambient target outdoor = none := by
  simp [poll_decision]

/-- C4: the poll body evaluates the decision rule into at most one corrective
call; on a poll where the observed mode differs from the remembered
`lastmode` no `set_device` write at all is issued; and the remembered
`lasttarg` / `lastamb` influence only the duplicate-suppressed status log
line, never the chosen action, while the remembered triple is simply
overwritten by the observed values. -/
theorem decision_gated_on_unchanged_mode :
    (∀ cfg st dev outdoor modeWriteOk, dev.hvac_mode ≠ st.lastmode →
        (poll_step cfg st (some dev) outdoor).action = none ∧
        action_writes cfg dev.hvac_mode modeWriteOk
          (poll_step cfg st (some dev) outdoor).action = []) ∧
    (∀ cfg lm lt la lt' la' r outdoor,
        (poll_step cfg ⟨lm, lt, la⟩ r outdoor).action =
          (poll_step cfg ⟨lm, lt', la'⟩ r outdoor).action) ∧
    (∀ cfg st dev outdoor,
        (poll_step cfg st (some dev) outdoor).state =
          ⟨dev.hvac_mode, dev.target_temperature_f, dev.ambient_temperature_f⟩) := by
  refine ⟨?_, ?_, ?_⟩
  · intro cfg st dev outdoor modeWriteOk h
    have hd : poll_decision cfg dev.hvac_mode st.lastmode dev.ambient_temperature_f
        dev.target_temperature_f outdoor = none :=
      poll_decision_ne _ _ _ _ _ _ h
    simp [poll_step, hd, action_writes]
  · intro cfg lm lt la lt' la' r outdoor
    cases r <;> simp [poll_step]
  · intro cfg st dev outdoor
    simp [poll_step]

/-- Witness for C4: on `testCfg`, a device seen in cool mode right after a
poll that remembered heat mode provokes no action and no write. -/
theorem decision_gated_on_unchanged_mode_witness :
    (poll_step testCfg ⟨.heat, 68, 70⟩ (some ⟨55, .cool, 50⟩) (some 40)).action = none ∧
      action_writes testCfg .cool true
        (poll_step testCfg ⟨.heat, 68, 70⟩ (some ⟨55, .cool, 50⟩) (some 40)).action = [] :=
  decision_gated_on_unchanged_mode.1 testCfg ⟨.heat, 68, 70⟩ ⟨55, .cool, 50⟩
    (some 40) true (by decide)

/-- C6: on a poll in heat mode with the mode unchanged, when the switch-to-cool
trigger does not apply but the current target lies above `MAX_HEAT_TARGET` or
below `MIN_HEAT_TARGET`, the program calls `set_heat` with the default
`HEAT_TARGET` — re-asserting heat mode and, when the mode write succeeds,
writing `HEAT_TARGET` — whatever the out-of-bounds target was. -/
theorem heat_target_sanity_reset (cfg : Config) (ambient target : ℤ)
    (outdoor : Option ℤ)
    (h1 : ¬ heat_switch_cond cfg ambient target outdoor)
    (h2 : cfg.MAX_HEAT_TARGET < target ∨ target < cfg.MIN_HEAT_TARGET) :
    poll_decision cfg .heat .heat ambient target outdoor =
        some (.callSetHeat (some cfg.HEAT_TARGET)) ∧
      (set_heat true .heat cfg (some cfg.HEAT_TARGET)).writes =
        [.hvac_mode .heat, .target_temperature_f cfg.HEAT_TARGET] := by
  rw [poll_decision_heat_eq]
  simp [h1, h2, set_heat]

/-- Witness for C6 at `testCfg`: ambient 70, target 90 (above the max heat
target 74), outdoor 49 — the cool trigger is off, and the decision resets the
target to the default heat target 68. -/
theorem heat_target_sanity_reset_witness :
    poll_decision testCfg .heat .heat 70 90 (some 49) =
        some (.callSetHeat (some testCfg.HEAT_TARGET)) ∧
      (set_heat true .heat testCfg (some testCfg.HEAT_TARGET)).writes =
        [.hvac_mode .heat, .target_temperature_f testCfg.HEAT_TARGET] :=
  heat_target_sanity_reset testCfg 70 90 (some 49) (by decide) (by decide)

/-- C5: every failure of the outdoor fetch — timeout/connection error, JSON
parse failure, non-200 status — yields the unknown value `none` (while a
parseable 200 yields the reading), and with an unknown outdoor temperature
the decision section behaves exactly as the indoor-only rule
`poll_decision_indoor`, which mentions neither the outdoor reading nor the
outdoor thresholds. -/
theorem outdoor_unknown_fallback :
    get_outdoor_temp .err = none ∧
    (∀ s, get_outdoor_temp (.ok s none) = none) ∧
    (∀ s t, s ≠ 200 → get_outdoor_temp (.ok s (some t)) = none) ∧
    (∀ t, get_outdoor_temp (.ok 200 (some t)) = some t) ∧
    (∀ cfg mode lastmode ambient target,
        poll_decision cfg mode lastmode ambient target none =
          poll_decision_indoor cfg mode lastmode ambient target) := by
  refine ⟨rfl, fun s => rfl, fun s t h => by simp [get_outdoor_temp, h],
          fun t => rfl, ?_⟩
  intro cfg mode lastmode ambient target
  cases mode <;> cases lastmode <;>
    simp [poll_decision, poll_decision_indoor, heat_switch_cond, cool_switch_cond,
          outdoor_ge, outdoor_le]

/-- Witness for C5: a 404 from OpenWeatherMap degrades to unknown, and the
heat-mode decision at unknown outdoor agrees with the indoor-only rule. -/
theorem outdoor_unknown_fallback_witness :
    get_outdoor_temp (.ok 404 (some 55)) = none ∧
      poll_decision testCfg .heat .heat 75 70 none =
        poll_decision_indoor testCfg .heat .heat 75 70 :=
  ⟨outdoor_unknown_fallback.2.2.1 404 55 (by decide),
   outdoor_unknown_fallback.2.2.2.2 testCfg .heat .heat 75 70⟩

/-- C9: in `set_heat` and `set_cool` the target write comes only after a
successful mode write: when the `hvac_mode` write fails, the attempted writes
are just that mode write and nothing is logged; any attempted
`target_temperature_f` write implies the mode write succeeded, and on success
the writes are the mode write followed by the resolved target. -/
theorem mode_write_gates_target_write :
    (∀ mode cfg nt, (set_heat false mode cfg nt).writes = [.hvac_mode .heat] ∧
        (set_heat false mode cfg nt).logs = []) ∧
    (∀ mode cfg nt, (set_cool false mode cfg nt).writes = [.hvac_mode .cool] ∧
        (set_cool false mode cfg nt).logs = []) ∧
    (∀ ok mode cfg nt t,
        WriteParm.target_temperature_f t ∈ (set_heat ok mode cfg nt).writes →
          ok = true) ∧
    (∀ ok mode cfg nt t,
        WriteParm.target_temperature_f t ∈ (set_cool ok mode cfg nt).writes →
          ok = true) ∧
    (∀ mode cfg nt, (set_heat true mode cfg nt).writes =
        [.hvac_mode .heat,
         .target_temperature_f (nt.getD cfg.HEAT_TARGET)]) ∧
    (∀ mode cfg nt, (set_cool true mode cfg nt).writes =
        [.hvac_mode .cool,
         .target_temperature_f (nt.getD cfg.COOL_TARGET)]) := by
  refine ⟨fun mode cfg nt => by simp [set_heat],
          fun mode cfg nt => by simp [set_cool], ?_, ?_, ?_, ?_⟩
  · intro ok mode cfg nt t h
    cases ok
    · simp [set_heat] at h
    · rfl
  · intro ok mode cfg nt t h
    cases ok
    · simp [set_cool] at h
    · rfl
  · intro mode cfg nt
    cases nt <;> simp [set_heat, Option.getD]
  · intro mode cfg nt
    cases nt <;> simp [set_cool, Option.getD]

/-- Witness for C9: with a failed mode write nothing else happens, and a
target write in the successful case certifies the mode write succeeded. -/
theorem mode_write_gates_target_write_witness :
    ((set_heat false .cool testCfg none).writes = [.hvac_mode .heat] ∧
        (set_heat false .cool testCfg none).logs = []) ∧
      true = true :=
  ⟨mode_write_gates_target_write.1 .cool testCfg none,
   mode_write_gates_target_write.2.2.1 true .heat testCfg none 68 (by decide)⟩

/-- C10: a device observed in mode `off` never triggers a corrective call
(no decision branch handles `off`), and with the remembered mode at its
initial value `off` the first poll issues no call whatever the device
reports — including a failed read. -/
theorem off_mode_inert :
    (∀ cfg st dev outdoor, dev.hvac_mode = .off →
        (poll_step cfg st (some dev) outdoor).action = none) ∧
    (∀ cfg r outdoor lt la,
        (poll_step cfg ⟨.off, lt, la⟩ r outdoor).action = none) ∧
    initialPollState.lastmode = .off := by
  refine ⟨?_, ?_, rfl⟩
  · intro cfg st dev outdoor h
    simp [poll_step, h, poll_decision_off]
  · intro cfg r outdoor lt la
    rcases r with _ | dev
    · simp [poll_step]
    · by_cases h : dev.hvac_mode = .off
      · simp [poll_step, h, poll_decision_off]
      · simp [poll_step, poll_decision_ne cfg dev.hvac_mode .off _ _ _ h]

/-- Witness for C10: an `off` device after a heat-mode poll provokes nothing,
and the very first poll (remembered mode `off`) provokes nothing on a cooling
device either. -/
theorem off_mode_inert_witness :
    (poll_step testCfg ⟨.heat, 68, 70⟩ (some ⟨85, .off, 72⟩) (some 60)).action = none ∧
      (poll_step testCfg ⟨.off, 0, 0⟩ (some ⟨85, .cool, 72⟩) (some 60)).action = none :=
  ⟨off_mode_inert.1 testCfg ⟨.heat, 68, 70⟩ ⟨85, .off, 72⟩ (some 60) (by decide),
   off_mode_inert.2.1 testCfg (some ⟨85, .cool, 72⟩) (some 60) 0 0⟩

lemma read_loop_succ (net : Nat → RNet × RNet) (fuel i : Nat) (url : String)
    (rurl : Option String) :
    read_loop net (fuel + 1) i url rurl =
      match read_iter (net i) url rurl with
      | .ret res rurl' => some (res, rurl')
      | .again rurl' => read_loop net fuel (i + 1) API_URL rurl' := by
  simp [read_loop]

lemma write_loop_succ (net : Nat → WNet × WNet) (parm_url : String) (fuel i : Nat)
    (url : String) (wurl : Option String) :
    write_loop net parm_url (fuel + 1) i url wurl =
      match write_iter (net i) url wurl with
      | .ret res wurl' => some (res, wurl')
      | .again wurl' => write_loop net parm_url fuel (i + 1) parm_url wurl' := by
  simp [write_loop]

lemma read_finish_ret_of (r : RResp) (url : String) (rurl : Option String)
    (h1 : ∀ ru, rurl = some ru → url ≠ ru) :
    ∃ res ru', read_finish r url rurl = .ret res ru' := by
  unfold read_finish
  cases hb : r.body with
  | none => exact ⟨none, rurl, rfl⟩
  | some dev =>
    by_cases h200 : r.status = 200
    · exact ⟨some dev, rurl, by simp [h200]⟩
    · cases hru : rurl with
      | none => exact ⟨none, none, by simp [h200]⟩
      | some ru => exact ⟨none, some ru, by simp [h200, h1 ru hru]⟩

lemma read_finish_again (r : RResp) (url : String) (rurl ru' : Option String)
    (h : read_finish r url rurl = .again ru') : ru' = rurl := by
  unfold read_finish at h
  split at h
  · cases h
  · split at h
    · cases h
    · split at h
      · cases h
      · split at h
        · cases h
          rfl
        · cases h

lemma read_iter_ret_of (ev : RNet × RNet) (url : String) (rurl : Option String)
    (h1 : ∀ ru, rurl = some ru → url ≠ ru)
    (h2 : ∀ r, ev.1 = .ok r → r.status = 307 → url ≠ r.location) :
    ∃ res ru', read_iter ev url rurl = .ret res ru' := by
  unfold read_iter
  cases hev : ev.1 with
  | err => exact ⟨none, rurl, rfl⟩
  | ok r =>
    by_cases h307 : r.status = 307
    · cases hev2 : ev.2 with
      | err => exact ⟨none, some r.location, by simp [h307]⟩
      | ok r2 =>
        have hne : ∀ ru, some r.location = some ru → url ≠ ru := by
          intro ru hru
          cases hru
          exact h2 r hev h307
        obtain ⟨res, ru', hret⟩ := read_finish_ret_of r2 url (some r.location) hne
        exact ⟨res, ru', by simp [h307, hret]⟩
    · obtain ⟨res, ru', hret⟩ := read_finish_ret_of r url rurl h1
      exact ⟨res, ru', by simp [h307, hret]⟩

lemma read_iter_again_cases (ev : RNet × RNet) (url : String) (rurl ru' : Option String)
    (h : read_iter ev url rurl = .again ru') :
    ru' = rurl ∨ ∃ r, ev.1 = .ok r ∧ r.status = 307 ∧ ru' = some r.location := by
  unfold read_iter at h
  cases hev : ev.1 with
  | err =>
    rw [hev] at h
    cases h
  | ok r =>
    rw [hev] at h
    by_cases h307 : r.status = 307
    · simp only [h307, if_true] at h
      cases hev2 : ev.2 with
      | err =>
        rw [hev2] at h
        cases h
      | ok r2 =>
        rw [hev2] at h
        exact Or.inr ⟨r, rfl, h307, (read_finish_again r2 url _ ru' h).symm ▸ rfl⟩
    · simp only [h307, if_false] at h
      exact Or.inl (read_finish_again r url rurl ru' h)

lemma write_finish_ret_of (r : WResp) (url : String) (wurl : Option String)
    (h1 : ∀ wu, wurl = some wu → url ≠ wu) :
    ∃ res wu', write_finish r url wurl = .ret res wu' := by
  unfold write_finish
  by_cases hp : r.parseOk = false
  · exact ⟨false, wurl, by simp [hp]⟩
  · by_cases h200 : r.status = 200
    · exact ⟨true, wurl, by simp [hp, h200]⟩
    · cases hwu : wurl with
      | none => exact ⟨false, none, by simp [hp, h200]⟩
      | some wu => exact ⟨false, some wu, by simp [hp, h200, h1 wu hwu]⟩

lemma write_finish_again (r : WResp) (url : String) (wurl wu' : Option String)
    (h : write_finish r url wurl = .again wu') : wu' = wurl := by
  unfold write_finish at h
  split at h
  · cases h
  · split at h
    · cases h
    · split at h
      · cases h
      · split at h
        · cases h
          rfl
        · cases h

lemma write_iter_ret_of (ev : WNet × WNet) (url : String) (wurl : Option String)
    (h1 : ∀ wu, wurl = some wu → url ≠ wu)
    (h2 : ∀ r, ev.1 = .ok r → r.status = 307 → url ≠ r.location) :
    ∃ res wu', write_iter ev url wurl = .ret res wu' := by
  unfold write_iter
  cases hev : ev.1 with
  | err => exact ⟨false, wurl, rfl⟩
  | ok r =>
    by_cases h307 : r.status = 307
    · cases hev2 : ev.2 with
      | err => exact ⟨false, some r.location, by simp [h307]⟩
      | ok r2 =>
        have hne : ∀ wu, some r.location = some wu → url ≠ wu := by
          intro wu hwu
          cases hwu
          exact h2 r hev h307
        obtain ⟨res, wu', hret⟩ := write_finish_ret_of r2 url (some r.location) hne
        exact ⟨res, wu', by simp [h307, hret]⟩
    · obtain ⟨res, wu', hret⟩ := write_finish_ret_of r url wurl h1
      exact ⟨res, wu', by simp [h307, hret]⟩

lemma write_iter_again_cases (ev : WNet × WNet) (url : String) (wurl wu' : Option String)
    (h : write_iter ev url wurl = .again wu') :
    wu' = wurl ∨ ∃ r, ev.1 = .ok r ∧ r.status = 307 ∧ wu' = some r.location := by
  unfold write_iter at h
  cases hev : ev.1 with
  | err =>
    rw [hev] at h
    cases h
  | ok r =>
    rw [hev] at h
    by_cases h307 : r.status = 307
    · simp only [h307, if_true] at h
      cases hev2 : ev.2 with
      | err =>
        rw [hev2] at h
        cases h
      | ok r2 =>
        rw [hev2] at h
        exact Or.inr ⟨r, rfl, h307, (write_finish_again r2 url _ wu' h).symm ▸ rfl⟩
    · simp only [h307, if_false] at h
      exact Or.inl (write_finish_again r url wurl wu' h)

/-- C7: a failed device read skips the poll cycle with no mutation — the
remembered state is unchanged, no action is chosen, nothing is logged — and
`read_device` reports failure (`none`) on a timeout/connection error, on a
JSON parse failure, on a non-200 response with no cached redirect in play,
and on a non-200 at the cached redirect whose canonical-URL retry also
returns non-200. -/
theorem read_failure_skips_poll :
    (∀ cfg st outdoor, poll_step cfg st none outdoor = ⟨st, none, false⟩) ∧
    (∀ (net : Nat → RNet × RNet) rurl fuel, (net 0).1 = .err →
        read_device net rurl (fuel + 1) = some (none, rurl)) ∧
    (∀ (net : Nat → RNet × RNet) rurl fuel r,
        (net 0).1 = .ok r → r.status ≠ 307 → r.body = none →
        read_device net rurl (fuel + 1) = some (none, rurl)) ∧
    (∀ (net : Nat → RNet × RNet) fuel r dev,
        (net 0).1 = .ok r → r.status ≠ 307 → r.status ≠ 200 → r.body = some dev →
        read_device net none (fuel + 1) = some (none, none)) ∧
    (∀ (net : Nat → RNet × RNet) fuel r r' dev dev' R, R ≠ API_URL →
        (net 0).1 = .ok r → r.status ≠ 307 → r.status ≠ 200 → r.body = some dev →
        (net 1).1 = .ok r' → r'.status ≠ 307 → r'.status ≠ 200 → r'.body = some dev' →
        read_device net (some R) (fuel + 2) = some (none, some R)) := by
  refine ⟨?_, ?_, ?_, ?_, ?_⟩
  · intro cfg st outdoor
    simp [poll_step]
  · intro net rurl fuel h
    unfold read_device
    rw [read_loop_succ]
    simp [read_iter, h]
  · intro net rurl fuel r h h307 hb
    unfold read_device
    rw [read_loop_succ]
    simp [read_iter, read_finish, h, h307, hb]
  · intro net fuel r dev h h307 h200 hb
    unfold read_device
    rw [read_loop_succ]
    simp [read_iter, read_finish, h, h307, h200, hb]
  · intro net fuel r r' dev dev' R hR h1 h2 h3 h4 h5 h6 h7 h8
    have hit1 : read_iter (net 0) R (some R) = .again (some R) := by
      simp [read_iter, read_finish, h1, h2, h3, h4]
    have hit2 : read_iter (net 1) API_URL (some R) = .ret none (some R) := by
      simp [read_iter, read_finish, h5, h6, h7, h8, (Ne.symm hR : API_URL ≠ R)]
    unfold read_device
    rw [show start_url API_URL (some R) = R from rfl]
    rw [show fuel + 2 = fuel + 1 + 1 from rfl, read_loop_succ]
    simp only [hit1]
    rw [read_loop_succ]
    simp only [hit2]

/-- Witness for C7: a 500 at the stale cached redirect `"R"` followed by a 503
at the canonical URL makes `read_device` give up with `None`, and a read
failure leaves the poll state untouched with no action. -/
theorem read_failure_skips_poll_witness :
    read_device cexFailNet (some "R") 2 = some (none, some "R") ∧
      poll_step testCfg ⟨.heat, 68, 70⟩ none (some 40) = ⟨⟨.heat, 68, 70⟩, none, false⟩ :=
  ⟨read_failure_skips_poll.2.2.2.2 cexFailNet 0 ⟨500, "", some cexBody⟩
      ⟨503, "", some cexBody⟩ cexBody cexBody "R" (by decide) rfl (by decide)
      (by decide) rfl rfl (by decide) (by decide) rfl,
   read_failure_skips_poll.1 testCfg ⟨.heat, 68, 70⟩ (some 40)⟩

/-- C8 counterexample: starting from the stale cached redirect `"R"`, the
first GET answers 500 (so the loop retries the canonical URL — the one
permitted fallback), but the canonical URL keeps answering 307 redirecting to
`API_URL` itself with a failing follow-up, so the `while True` loop is still
running after two iterations — and still after nine — contradicting
termination after at most one fallback retry. -/
theorem redirect_retry_unbounded_counterexample :
    read_device cexNet (some "R") 2 = none ∧
      read_device cexNet (some "R") 9 = none := by
  decide

lemma cexFailNet_no307 (n : Nat) (r : RResp) (h : (cexFailNet n).1 = .ok r)
    (h307 : r.status = 307) : False := by
  by_cases hn : n = 0 <;> simp [cexFailNet, hn] at h <;> subst h <;> simp at h307

lemma cexWFailNet_no307 (n : Nat) (r : WResp) (h : (cexWFailNet n).1 = .ok r)
    (h307 : r.status = 307) : False := by
  by_cases hn : n = 0 <;> simp [cexWFailNet, hn] at h <;> subst h <;> simp at h307

/-- C8 (amended: bounded retry holds provided the cached redirect URL is not
itself the canonical URL and no 307 redirect points at the canonical URL):
under those provisos both retry loops finish within two iterations — at most
one fallback retry — returning success as soon as a 200 response is obtained,
whether on the first request or on the canonical-URL retry, and returning
failure (`none` for reads, `false` for writes) when the request to the cached
redirect gets a non-200 and the canonical-URL retry also gets a non-200. -/
theorem redirect_retry_bounded (rnet : Nat → RNet × RNet)
    (wnet : Nat → WNet × WNet) (rurl wurl : Option String) (parm_url : String)
    (hr : rurl ≠ some API_URL)
    (hr307 : ∀ n r, (rnet n).1 = .ok r → r.status = 307 → r.location ≠ API_URL)
    (hw : wurl ≠ some parm_url)
    (hw307 : ∀ n r, (wnet n).1 = .ok r → r.status = 307 → r.location ≠ parm_url) :
    (read_device rnet rurl 2).isSome = true ∧
    (set_device wnet parm_url wurl 2).isSome = true ∧
    (∀ r dev, (rnet 0).1 = .ok r → r.status = 200 → r.body = some dev →
        read_device rnet rurl 2 = some (some dev, rurl)) ∧
    (∀ r, (wnet 0).1 = .ok r → r.parseOk = true → r.status = 200 →
        set_device wnet parm_url wurl 2 = some (true, wurl)) ∧
    (∀ r r' dev dev' R, rurl = some R →
        (rnet 0).1 = .ok r → r.status ≠ 307 → r.status ≠ 200 → r.body = some dev →
        (rnet 1).1 = .ok r' → r'.status ≠ 307 → r'.status ≠ 200 →
        r'.body = some dev' →
        read_device rnet rurl 2 = some (none, some R)) ∧
    (∀ r r' dev dev' R, rurl = some R →
        (rnet 0).1 = .ok r → r.status ≠ 307 → r.status ≠ 200 → r.body = some dev →
        (rnet 1).1 = .ok r' → r'.status = 200 → r'.body = some dev' →
        read_device rnet rurl 2 = some (some dev', some R)) ∧
    (∀ r r' W, wurl = some W →
        (wnet 0).1 = .ok r → r.status ≠ 307 → r.status ≠ 200 → r.parseOk = true →
        (wnet 1).1 = .ok r' → r'.status ≠ 307 → r'.status ≠ 200 →
        r'.parseOk = true →
        set_device wnet parm_url wurl 2 = some (false, some W)) ∧
    (∀ r r' W, wurl = some W →
        (wnet 0).1 = .ok r → r.status ≠ 307 → r.status ≠ 200 → r.parseOk = true →
        (wnet 1).1 = .ok r' → r'.status = 200 → r'.parseOk = true →
        set_device wnet parm_url wurl 2 = some (true, some W)) := by
  refine ⟨?_, ?_, ?_, ?_, ?_, ?_, ?_, ?_⟩
  · unfold read_device
    rw [show (2 : Nat) = 1 + 1 from rfl, read_loop_succ]
    cases hit : read_iter (rnet 0) (start_url API_URL rurl) rurl with
    | ret res ru' => simp [hit]
    | again ru' =>
      simp only [hit]
      rw [show (1 : Nat) = 0 + 1 from rfl, read_loop_succ]
      have hru' : ∀ ru, ru' = some ru → API_URL ≠ ru := by
        rcases read_iter_again_cases _ _ _ _ hit with heq | ⟨r, hrr, h307, heq⟩
        · subst heq
          intro ru hru h
          rw [← h] at hru
          exact hr hru
        · intro ru hru h
          rw [heq] at hru
          injection hru with hru
          exact hr307 0 r hrr h307 (hru.trans h.symm)
      obtain ⟨res, ru'', hret⟩ := read_iter_ret_of (rnet 1) API_URL ru' hru'
        (fun r hrr h307 => (hr307 1 r hrr h307).symm)
      simp [hret]
  · unfold set_device
    rw [show (2 : Nat) = 1 + 1 from rfl, write_loop_succ]
    cases hit : write_iter (wnet 0) (start_url parm_url wurl) wurl with
    | ret res wu' => simp [hit]
    | again wu' =>
      simp only [hit]
      rw [show (1 : Nat) = 0 + 1 from rfl, write_loop_succ]
      have hwu' : ∀ wu, wu' = some wu → parm_url ≠ wu := by
        rcases write_iter_again_cases _ _ _ _ hit with heq | ⟨r, hrr, h307, heq⟩
        · subst heq
          intro wu hwu h
          rw [← h] at hwu
          exact hw hwu
        · intro wu hwu h
          rw [heq] at hwu
          injection hwu with hwu
          exact hw307 0 r hrr h307 (hwu.trans h.symm)
      obtain ⟨res, wu'', hret⟩ := write_iter_ret_of (wnet 1) parm_url wu' hwu'
        (fun r hrr h307 => (hw307 1 r hrr h307).symm)
      simp [hret]
  · intro r dev hrr h200 hb
    have hit : read_iter (rnet 0) (start_url API_URL rurl)
        rurl = .ret (some dev) rurl := by
      simp [read_iter, read_finish, hrr, h200, hb]
    unfold read_device
    rw [show (2 : Nat) = 1 + 1 from rfl, read_loop_succ]
    simp [hit]
  · intro r hrr hp h200
    have hit : write_iter (wnet 0) (start_url parm_url wurl)
        wurl = .ret true wurl := by
      simp [write_iter, write_finish, hrr, hp, h200]
    unfold set_device
    rw [show (2 : Nat) = 1 + 1 from rfl, write_loop_succ]
    simp [hit]
  · intro r r' dev dev' R hRu h1 h2 h3 h4 h5 h6 h7 h8
    subst hRu
    have hR : API_URL ≠ R := fun h => hr (by rw [h])
    have hit1 : read_iter (rnet 0) R (some R) = .again (some R) := by
      simp [read_iter, read_finish, h1, h2, h3, h4]
    have hit2 : read_iter (rnet 1) API_URL (some R) = .ret none (some R) := by
      simp [read_iter, read_finish, h5, h6, h7, h8, hR]
    unfold read_device
    rw [show start_url API_URL (some R) = R from rfl]
    rw [show (2 : Nat) = 1 + 1 from rfl, read_loop_succ]
    simp only [hit1]
    rw [show (1 : Nat) = 0 + 1 from rfl, read_loop_succ]
    simp only [hit2]
  · intro r r' dev dev' R hRu h1 h2 h3 h4 h5 h6 h7
    subst hRu
    have hit1 : read_iter (rnet 0) R (some R) = .again (some R) := by
      simp [read_iter, read_finish, h1, h2, h3, h4]
    have hit2 : read_iter (rnet 1) API_URL (some R) = .ret (some dev') (some R) := by
      simp [read_iter, read_finish, h5, h6, h7]
    unfold read_device
    rw [show start_url API_URL (some R) = R from rfl]
    rw [show (2 : Nat) = 1 + 1 from rfl, read_loop_succ]
    simp only [hit1]
    rw [show (1 : Nat) = 0 + 1 from rfl, read_loop_succ]
    simp only [hit2]
  · intro r r' W hWu h1 h2 h3 h4 h5 h6 h7 h8
    subst hWu
    have hW : parm_url ≠ W := fun h => hw (by rw [h])
    have hit1 : write_iter (wnet 0) W (some W) = .again (some W) := by
      simp [write_iter, write_finish, h1, h2, h3, h4]
    have hit2 : write_iter (wnet 1) parm_url (some W) = .ret false (some W) := by
      simp [write_iter, write_finish, h5, h6, h7, h8, hW]
    unfold set_device
    rw [show start_url parm_url (some W) = W from rfl]
    rw [show (2 : Nat) = 1 + 1 from rfl, write_loop_succ]
    simp only [hit1]
    rw [show (1 : Nat) = 0 + 1 from rfl, write_loop_succ]
    simp only [hit2]
  · intro r r' W hWu h1 h2 h3 h4 h5 h6 h7
    subst hWu
    have hit1 : write_iter (wnet 0) W (some W) = .again (some W) := by
      simp [write_iter, write_finish, h1, h2, h3, h4]
    have hit2 : write_iter (wnet 1) parm_url (some W) = .ret true (some W) := by
      simp [write_iter, write_finish, h5, h6, h7]
    unfold set_device
    rw [show start_url parm_url (some W) = W from rfl]
    rw [show (2 : Nat) = 1 + 1 from rfl, write_loop_succ]
    simp only [hit1]
    rw [show (1 : Nat) = 0 + 1 from rfl, write_loop_succ]
    simp only [hit2]

/-- Witness for the amended C8: with no cached redirect and 200s the read
loop succeeds within the bound; with the stale cached redirects `"R"` / `"W"`
and 500-then-503 answers, both loops return failure after exactly the one
canonical-URL retry. -/
theorem redirect_retry_bounded_witness :
    (read_device okRNet none 2).isSome = true ∧
      read_device cexFailNet (some "R") 2 = some (none, some "R") ∧
      set_device cexWFailNet "https://developer-api.nest.com/devices/thermostats/d1"
        (some "W") 2 = some (false, some "W") := by
  have h1 := redirect_retry_bounded okRNet okWNet none none
    "https://developer-api.nest.com/devices/thermostats/d1"
    (by simp) (fun n r h h307 => by cases h; simp at h307)
    (by simp) (fun n r h h307 => by cases h; simp at h307)
  have h2 := redirect_retry_bounded cexFailNet cexWFailNet (some "R") (some "W")
    "https://developer-api.nest.com/devices/thermostats/d1"
    (by decide) (fun n r h h307 => (cexFailNet_no307 n r h h307).elim)
    (by decide) (fun n r h h307 => (cexWFailNet_no307 n r h h307).elim)
  exact ⟨h1.1,
    h2.2.2.2.2.1 ⟨500, "", some cexBody⟩ ⟨503, "", some cexBody⟩ cexBody cexBody
      "R" rfl rfl (by decide) (by decide) rfl rfl (by decide) (by decide) rfl,
    h2.2.2.2.2.2.2.1 ⟨500, "", true⟩ ⟨503, "", true⟩ "W" rfl rfl (by decide)
      (by decide) rfl rfl (by decide) (by decide) rfl⟩

end Jnest
